import Mathlib

/-!
# Verification of `src/shell.c`

A shallow embedding of the small interactive shell in `src/shell.c`:
a read-dispatch-execute loop with a fixed builtin table (`exit`, `?`,
`pwd`, `cd`), an exec-on-fork protocol for external commands, and a
terminal/session initializer.

Modelling conventions:
* A C `char *` that may be NULL is `Option String` (`none` = NULL).
* OS effects are made explicit through `OSState`: the `HOME` variable,
  the current working directory, which paths `chdir` accepts, whether
  `getcwd` succeeds, which paths `execv` accepts (with the program's
  eventual exit status), and the text written to stdout / stderr.
* The loop produces a trace: one `Iteration` per `fgets` call, holding
  the prompt printed before that read (if any), the line read (`none`
  at end-of-input) and the `Step`s taken while processing it.
* `strerror(errno)` text is abstracted by the fixed string `sys_err`.
-/

/-- Modelled from the spec: the Token Source (`tokenizer.h` /
`tokenizer.c`) is not part of `src/`.  §2 gives
`token_at(Tokens, index) → string`, and §4.1 allows an absent first
token, which reaches `lookup` as a NULL pointer; we model a token
pointer as `Option String`, `none` for an out-of-range index. -/
def tokens_get_token (tokens : List String) (i : Nat) : Option String :=
  tokens.get? i

/-- Modelled from the spec: `length(Tokens) → count` (§2). -/
def tokens_get_length (tokens : List String) : Nat :=
  tokens.length

/-- Stand-in for the `strerror(errno)` text printed by `perror`. -/
def sys_err : String := "No such file or directory"

/-- The builtin handlers, as a closed set of tags standing for the C
function pointers `cmd_exit`, `cmd_help`, `cmd_pwd`, `cmd_cd`. -/
inductive CmdTag
  | tag_exit
  | tag_help
  | tag_pwd
  | tag_cd
deriving DecidableEq

/-- `fun_desc_t`: handler pointer, command name, help text. -/
structure FunDesc where
  fn : CmdTag
  cmd : String
  doc : String
deriving DecidableEq

/-- `cmd_table` from `shell.c` lines 47-52, verbatim. -/
def cmd_table : List FunDesc :=
  [⟨CmdTag.tag_exit, "exit", "exit the command shell"⟩,
   ⟨CmdTag.tag_help, "?", "show this help menu"⟩,
   ⟨CmdTag.tag_pwd, "pwd", "prints working directory"⟩,
   ⟨CmdTag.tag_cd, "cd", "changes directory"⟩]

/-- The OS-visible state the shell reads and writes.  `validDirs`
lists the paths `chdir` accepts; `execs` maps the paths `execv`
accepts to the exit status of the program run there. -/
structure OSState where
  env_HOME : Option String
  cwd : String
  validDirs : List String
  getcwd_ok : Bool
  execs : List (String × Nat)
  stdout : List String
  stderr : List String
deriving DecidableEq

/-- `chdir(2)`: succeeds exactly on paths in `validDirs`; on success
the working directory becomes `path`, on failure nothing changes. -/
def chdir (st : OSState) (path : String) : OSState × Bool :=
  if path ∈ st.validDirs then ({ st with cwd := path }, true) else (st, false)

/-- Result of a builtin handler: the C `int` return value, or process
termination (`cmd_exit` calls `exit(0)` and never returns). -/
inductive HRes
  | ret (v : Int)
  | exited (code : Nat)
deriving DecidableEq

/-- `cmd_exit` (line 62): `exit(0)`. -/
def cmd_exit (_tokens : List String) (st : OSState) : OSState × HRes :=
  (st, HRes.exited 0)

/-- `cmd_help` (lines 55-59): prints each table entry as
`"<cmd> - <doc>\n"` and returns 1. -/
def cmd_help (_tokens : List String) (st : OSState) : OSState × HRes :=
  ({ st with stdout := st.stdout ++ cmd_table.map (fun d => d.cmd ++ " - " ++ d.doc ++ "\n") },
   HRes.ret 1)

/-- `cmd_pwd` (lines 64-72): prints the working directory, or reports
`getcwd` failure through `perror` on stderr; returns 1. -/
def cmd_pwd (_tokens : List String) (st : OSState) : OSState × HRes :=
  if st.getcwd_ok then
    ({ st with stdout := st.stdout ++ [st.cwd ++ "\n"] }, HRes.ret 1)
  else
    ({ st with stderr := st.stderr ++ ["getcwd() error: " ++ sys_err] }, HRes.ret 1)

/-- `cmd_cd` (lines 74-93): with no argument, `chdir(getenv("HOME"))`
(error to stderr if HOME is unset); with an argument, `chdir` to it;
any `chdir` failure is reported via `perror("cd")`.  Returns 1. -/
def cmd_cd (tokens : List String) (st : OSState) : OSState × HRes :=
  if tokens_get_length tokens = 1 then
    match st.env_HOME with
    | some home =>
        let r := chdir st home
        if r.2 then (r.1, HRes.ret 1)
        else ({ r.1 with stderr := r.1.stderr ++ ["cd: " ++ sys_err] }, HRes.ret 1)
    | none =>
        ({ st with stderr := st.stderr ++ ["No HOME environment variable set.\n"] },
         HRes.ret 1)
  else
    match tokens_get_token tokens 1 with
    | some dir =>
        let r := chdir st dir
        if r.2 then (r.1, HRes.ret 1)
        else ({ r.1 with stderr := r.1.stderr ++ ["cd: " ++ sys_err] }, HRes.ret 1)
    | none =>
        ({ st with stderr := st.stderr ++ ["cd: " ++ sys_err] }, HRes.ret 1)

/-- Dispatch through the table's function pointer. -/
def call_cmd : CmdTag → List String → OSState → OSState × HRes
  | CmdTag.tag_exit => cmd_exit
  | CmdTag.tag_help => cmd_help
  | CmdTag.tag_pwd => cmd_pwd
  | CmdTag.tag_cd => cmd_cd

/-- `cmd_table[i].fun(tokens)`; the out-of-range case cannot arise for
an index produced by `lookup`. -/
def run_builtin (i : Nat) (tokens : List String) (st : OSState) : OSState × HRes :=
  match cmd_table.get? i with
  | some d => call_cmd d.fn tokens st
  | none => (st, HRes.ret 1)

/-- The scan inside `lookup` (lines 97-99): walk the table from index
`i`; at each entry the C condition is `cmd && strcmp(entry.cmd, cmd) == 0`,
so a NULL `cmd` never matches. -/
def lookupFrom (cmd : Option String) : Nat → List FunDesc → Int
  | _, [] => -1
  | i, d :: rest =>
      match cmd with
      | some s => if d.cmd = s then Int.ofNat i else lookupFrom cmd (i + 1) rest
      | none => lookupFrom cmd (i + 1) rest

/-- `lookup` (lines 96-101): index of the builtin with the given name,
`-1` when not found or when the name pointer is NULL. -/
def lookup (cmd : Option String) : Int :=
  lookupFrom cmd 0 cmd_table

/-- One observable step of processing a line. -/
inductive Step
  | builtin (idx : Nat)
  | fork
  | exec (argv : List (Option String))
  | child_fail (name : Option String)
  | child_run (path : String)
  | wait_done
deriving DecidableEq

/-- Lines 156-161: the NULL-terminated argument vector,
`argv_exec[i] = tokens_get_token(tokens, i)` followed by NULL. -/
def build_argv (tokens : List String) : List (Option String) :=
  tokens.map some ++ [none]

/-- Lines 150-176: fork; in the child `execv(argv[0], argv)`, and if
that returns, `perror(argv_exec[0])` then `exit(EXIT_FAILURE)`; the
parent blocks in `wait(NULL)`.  Returns the steps taken, the state
(child stderr shares the terminal) and the child's exit status. -/
def run_external (tokens : List String) (st : OSState) : List Step × OSState × Nat :=
  let argv := build_argv tokens
  match tokens_get_token tokens 0 with
  | some p =>
      match st.execs.lookup p with
      | some code =>
          ([Step.fork, Step.exec argv, Step.child_run p, Step.wait_done], st, code)
      | none =>
          ([Step.fork, Step.exec argv, Step.child_fail (some p), Step.wait_done],
           { st with stderr := st.stderr ++ [p ++ ": " ++ sys_err] }, 1)
  | none =>
      ([Step.fork, Step.exec argv, Step.child_fail none, Step.wait_done],
       { st with stderr := st.stderr ++ [sys_err] }, 1)

/-- The loop body for one line (lines 141-177): tokenize, `lookup` the
first token, run the builtin or spawn the external command.  The third
component is `some code` when a builtin terminated the process. -/
def process_line (tok : String → List String) (line : String) (st : OSState) :
    List Step × OSState × Option Nat :=
  let tokens := tok line
  let fundex := lookup (tokens_get_token tokens 0)
  if 0 ≤ fundex then
    match run_builtin fundex.toNat tokens st with
    | (st', HRes.exited code) => ([Step.builtin fundex.toNat], st', some code)
    | (st', HRes.ret _) => ([Step.builtin fundex.toNat], st', none)
  else
    let r := run_external tokens st
    (r.1, r.2.1, none)

/-- One `fgets` round: the prompt printed before the read (if any),
the line read (`none` at end-of-input) and the processing steps. -/
structure Iteration where
  prompt_before : Option String
  line : Option String
  steps : List Step
deriving DecidableEq

/-- How the parent process came to stop reading. -/
inductive Outcome
  | eof
  | exited (code : Nat)
deriving DecidableEq

/-- The parent's exit status: `main` returns 0 at end-of-input;
otherwise a builtin called `exit(code)`. -/
def final_status : Outcome → Nat
  | Outcome.eof => 0
  | Outcome.exited code => code

/-- The prompt text `fprintf(stdout, "%d: ", n)`. -/
def prompt_text (n : Nat) : String :=
  toString n ++ ": "

/-- The prompt actually printed: only when interactive (lines 136-137
and 179-181). -/
def prompt_of (interactive : Bool) (n : Nat) : Option String :=
  if interactive then some (prompt_text n) else none

/-- The `while (fgets(...))` loop of `main` (lines 139-185), reading
from the given list of input lines with line counter `n`.  `++line_num`
happens only on the interactive path, exactly as in the C.  Returns
the trace of iterations, the final OS state and how the loop ended. -/
def shell_loop (interactive : Bool) (tok : String → List String) :
    List String → Nat → OSState → List Iteration × OSState × Outcome
  | [], n, st =>
      ([⟨prompt_of interactive n, none, []⟩], st, Outcome.eof)
  | line :: rest, n, st =>
      match process_line tok line st with
      | (steps, st', some code) =>
          ([⟨prompt_of interactive n, some line, steps⟩], st', Outcome.exited code)
      | (steps, st', none) =>
          let r := shell_loop interactive tok rest (if interactive then n + 1 else n) st'
          (⟨prompt_of interactive n, some line, steps⟩ :: r.1, r.2.1, r.2.2)

/-- What the OS reports to `init_shell`: the `isatty(0)` answer, the
successive `tcgetpgrp` readings (one per loop check), the process
group, the pid, whether `tcsetpgrp` / `tcgetattr` succeed, and the
`termios` contents (abstracted to a number). -/
structure TermOS where
  isatty_stdin : Bool
  fg_pgrps : List Int
  pgrp : Int
  pid : Int
  tcsetpgrp_ok : Bool
  tcgetattr_ok : Bool
  tmodes : Nat
deriving DecidableEq

/-- Terminal-control actions taken during initialization, with the
success flag the C code receives (and ignores). -/
inductive InitEvent
  | sigttin (pgid : Int)
  | set_fg (fd : Int) (pgid : Int) (ok : Bool)
  | get_attr (fd : Int) (ok : Bool)
deriving DecidableEq

/-- The globals set by `init_shell`, plus the trace of terminal-control
actions and everything it wrote to stderr. -/
structure ShellInit where
  shell_is_interactive : Bool
  shell_terminal : Int
  shell_pgid : Option Int
  shell_tmodes : Option Nat
  events : List InitEvent
  stderr_out : List String
deriving DecidableEq

/-- Lines 115-116: `while (tcgetpgrp(term) != (shell_pgid = getpgrp()))
kill(-shell_pgid, SIGTTIN);` — consume one `tcgetpgrp` reading per
check; send SIGTTIN while it differs from the process group.  Returns
the kills sent and whether the foreground was reached within the
modelled readings (`false` = the C loop is still blocked). -/
def fg_wait (pgrp : Int) : List Int → List InitEvent × Bool
  | [] => ([], false)
  | g :: rest =>
      if g ≠ pgrp then
        let r := fg_wait pgrp rest
        (InitEvent.sigttin pgrp :: r.1, r.2)
      else ([], true)

/-- `init_shell` (lines 104-127).  When `fg_wait` does not complete,
the C code is still blocked in the SIGTTIN loop; we represent that
truncated run with the kills sent so far and no further fields set. -/
def init_shell (os : TermOS) : ShellInit :=
  let term : Int := 0
  if os.isatty_stdin then
    let w := fg_wait os.pgrp os.fg_pgrps
    if w.2 then
      { shell_is_interactive := true
        shell_terminal := term
        shell_pgid := some os.pid
        shell_tmodes := if os.tcgetattr_ok then some os.tmodes else none
        events := w.1 ++ [InitEvent.set_fg term os.pid os.tcsetpgrp_ok,
                          InitEvent.get_attr term os.tcgetattr_ok]
        stderr_out := [] }
    else
      { shell_is_interactive := true
        shell_terminal := term
        shell_pgid := none
        shell_tmodes := none
        events := w.1
        stderr_out := [] }
  else
    { shell_is_interactive := false
      shell_terminal := term
      shell_pgid := none
      shell_tmodes := none
      events := []
      stderr_out := [] }

/-- `main` (lines 129-188): initialize, print the first prompt when
interactive, run the read loop from line number 0. -/
def shell_main (os : TermOS) (tok : String → List String) (lines : List String)
    (st : OSState) : ShellInit × List Iteration × OSState × Outcome :=
  let ini := init_shell os
  (ini, shell_loop ini.shell_is_interactive tok lines 0 st)

/-! ## Fixtures for witnesses -/

/-- A sample OS state for concrete runs. -/
def st0 : OSState :=
  { env_HOME := some "/home/u", cwd := "/", validDirs := ["/home/u", "/tmp"],
    getcwd_ok := true, execs := [("/bin/echo", 0)], stdout := [], stderr := [] }

/-- A sample tokenizer: the whole line is a single token. -/
def tok_one (line : String) : List String := [line]

/-- A sample tokenizer: every line yields zero tokens. -/
def tok_none (_line : String) : List String := []

/-- A sample terminal: one background reading before the foreground. -/
def os0 : TermOS :=
  { isatty_stdin := true, fg_pgrps := [7, 5], pgrp := 5, pid := 42,
    tcsetpgrp_ok := true, tcgetattr_ok := true, tmodes := 3 }

/-- A terminal on which `tcsetpgrp` fails. -/
def os_fail : TermOS :=
  { isatty_stdin := true, fg_pgrps := [5], pgrp := 5, pid := 42,
    tcsetpgrp_ok := false, tcgetattr_ok := true, tmodes := 3 }

/-! ## C1: the builtin registry -/

/-- C1 counterexample: the claim says `lookup` recognizes the name
`help`, but the help builtin is registered under `"?"`
(`cmd_table[1].cmd`, line 49), so `lookup("help")` signals not-found
and no table entry carries the name `"help"`. -/
theorem C1_help_not_registered :
    lookup (some "help") = -1 ∧ cmd_table.map FunDesc.cmd = ["exit", "?", "pwd", "cd"] := by
  constructor
  · rfl
  · rfl

/-- C1 (amended): the registry recognizes exactly the four names
`exit`, `?`, `pwd`, `cd` (the help handler is registered as `"?"`):
for each, `lookup` returns that entry's index; for any other string,
or a NULL first token, it returns -1, by exact case-sensitive string
equality. -/
theorem C1_lookup :
    lookup none = -1 ∧
    lookup (some "exit") = 0 ∧ lookup (some "?") = 1 ∧
    lookup (some "pwd") = 2 ∧ lookup (some "cd") = 3 ∧
    (∀ s : String, s ≠ "exit" → s ≠ "?" → s ≠ "pwd" → s ≠ "cd" →
      lookup (some s) = -1) := by
  refine ⟨rfl, rfl, rfl, rfl, rfl, ?_⟩
  intro s h1 h2 h3 h4
  simp [lookup, cmd_table, lookupFrom, Ne.symm h1, Ne.symm h2, Ne.symm h3, Ne.symm h4]

/-- C1 witness: a case-different name is not recognized. -/
theorem C1_lookup_w : lookup (some "EXIT") = -1 :=
  C1_lookup.2.2.2.2.2 "EXIT" (by decide) (by decide) (by decide) (by decide)

/-! ## C4: the `cd` builtin -/

/-- C4: `cd` with no argument changes to `HOME` when it is set and the
change succeeds; when `HOME` is unset it reports an error and leaves
the working directory unchanged; with an argument it changes to that
path; on any `chdir` failure it reports to stderr and the working
directory is unchanged. -/
theorem C4_cd (tokens : List String) (st : OSState) :
    (∀ home, tokens_get_length tokens = 1 → st.env_HOME = some home →
      home ∈ st.validDirs → (cmd_cd tokens st).1.cwd = home) ∧
    (∀ home, tokens_get_length tokens = 1 → st.env_HOME = some home →
      home ∉ st.validDirs →
      (cmd_cd tokens st).1.cwd = st.cwd ∧
      (cmd_cd tokens st).1.stderr = st.stderr ++ ["cd: " ++ sys_err]) ∧
    (tokens_get_length tokens = 1 → st.env_HOME = none →
      (cmd_cd tokens st).1.cwd = st.cwd ∧
      (cmd_cd tokens st).1.stderr = st.stderr ++ ["No HOME environment variable set.\n"]) ∧
    (∀ dir, tokens_get_length tokens ≠ 1 → tokens_get_token tokens 1 = some dir →
      dir ∈ st.validDirs → (cmd_cd tokens st).1.cwd = dir) ∧
    (∀ dir, tokens_get_length tokens ≠ 1 → tokens_get_token tokens 1 = some dir →
      dir ∉ st.validDirs →
      (cmd_cd tokens st).1.cwd = st.cwd ∧
      (cmd_cd tokens st).1.stderr = st.stderr ++ ["cd: " ++ sys_err]) := by
  refine ⟨?_, ?_, ?_, ?_, ?_⟩
  · intro home hlen hh hv
    simp [cmd_cd, chdir, hlen, hh, hv]
  · intro home hlen hh hv
    simp [cmd_cd, chdir, hlen, hh, hv]
  · intro hlen hh
    simp [cmd_cd, chdir, hlen, hh]
  · intro dir hlen ht hv
    simp [cmd_cd, chdir, hlen, ht, hv]
  · intro dir hlen ht hv
    simp [cmd_cd, chdir, hlen, ht, hv]

/-- C4 witness: `cd` with no argument and `HOME=/home/u` lands in
`/home/u`. -/
theorem C4_cd_w : (cmd_cd ["cd"] st0).1.cwd = "/home/u" :=
  (C4_cd ["cd"] st0).1 "/home/u" rfl rfl (by decide)

/-! ## C8, C9: terminal/session initialization -/

/-- When the process group appears among the `tcgetpgrp` readings, the
SIGTTIN loop sends one kill per differing reading and completes. -/
theorem fg_wait_complete (pgrp : Int) (l : List Int) (h : pgrp ∈ l) :
    fg_wait pgrp l =
      (List.replicate (l.takeWhile (fun g => g != pgrp)).length (InitEvent.sigttin pgrp),
       true) := by
  induction l with
  | nil => cases h
  | cons g rest ih =>
    by_cases hg : g = pgrp
    · subst hg
      simp [fg_wait]
    · have hmem : pgrp ∈ rest := by
        rcases List.mem_cons.mp h with h' | h'
        · exact absurd h'.symm hg
        · exact h'
      simp [fg_wait, hg, ih hmem, List.replicate_succ]

/-- C8: initialization: a non-tty input marks the session
non-interactive and skips every terminal-control step; on a tty, while
the terminal's foreground group differs from the shell's group a
SIGTTIN is sent to the group and the check repeats, and once they
match the shell's pid becomes the session's process-group id, is
assigned as the terminal's foreground group, and the terminal modes
are captured. -/
theorem C8_init (os : TermOS) :
    (os.isatty_stdin = false →
       init_shell os = ⟨false, 0, none, none, [], []⟩) ∧
    (os.isatty_stdin = true → os.pgrp ∈ os.fg_pgrps →
       (init_shell os).shell_is_interactive = true ∧
       (init_shell os).shell_pgid = some os.pid ∧
       (init_shell os).events =
         List.replicate ((os.fg_pgrps.takeWhile (fun g => g != os.pgrp)).length)
             (InitEvent.sigttin os.pgrp)
           ++ [InitEvent.set_fg 0 os.pid os.tcsetpgrp_ok,
               InitEvent.get_attr 0 os.tcgetattr_ok] ∧
       (init_shell os).shell_tmodes =
         (if os.tcgetattr_ok then some os.tmodes else none)) := by
  constructor
  · intro h
    simp [init_shell, h]
  · intro h hm
    simp [init_shell, h, fg_wait_complete os.pgrp _ hm]

/-- C8 witness: on a tty whose foreground group reads 7 then 5 for a
shell in group 5 with pid 42, one SIGTTIN is sent, then pid 42 takes
the terminal and the modes are saved. -/
theorem C8_init_w :
    (init_shell os0).shell_pgid = some 42 ∧
    (init_shell os0).events =
      [InitEvent.sigttin 5, InitEvent.set_fg 0 42 true, InitEvent.get_attr 0 true] := by
  have h := (C8_init os0).2 rfl (by decide)
  exact ⟨h.2.1, h.2.2.1.trans (by decide)⟩

/-- C9 counterexample: with `tcsetpgrp` failing during initialization,
the failure is NOT surfaced on the error channel — `init_shell` writes
nothing to stderr (the C code ignores every terminal-control return
value) — although startup indeed proceeds. -/
theorem C9_failure_unreported :
    InitEvent.set_fg 0 42 false ∈ (init_shell os_fail).events ∧
    (init_shell os_fail).stderr_out = [] ∧
    (init_shell os_fail).shell_is_interactive = true := by decide

/-- C9 (amended): when a terminal-control operation fails during
initialization, the failure is silently ignored — nothing is written
to standard error — and startup is not aborted: the session proceeds
with the interactivity that was detected. -/
theorem C9_silent (os : TermOS) :
    (init_shell os).stderr_out = [] ∧
    (init_shell os).shell_is_interactive = os.isatty_stdin := by
  unfold init_shell
  by_cases h : os.isatty_stdin <;> simp [h]
  by_cases w : (fg_wait os.pgrp os.fg_pgrps).2 <;> simp [w]

/-! ## Structure of the loop body -/

/-- Every processed line is either one builtin call, or a spawn whose
child either fails to exec or runs the program. -/
theorem process_line_shape (tok : String → List String) (line : String) (st : OSState) :
    (∃ i, (process_line tok line st).1 = [Step.builtin i]) ∨
    (∃ argv nm, (process_line tok line st).1 =
      [Step.fork, Step.exec argv, Step.child_fail nm, Step.wait_done]) ∨
    (∃ argv p, (process_line tok line st).1 =
      [Step.fork, Step.exec argv, Step.child_run p, Step.wait_done]) := by
  unfold process_line
  by_cases h : (0 : Int) ≤ lookup (tokens_get_token (tok line) 0)
  · rcases hr : run_builtin (lookup (tokens_get_token (tok line) 0)).toNat (tok line) st
      with ⟨st', r⟩
    cases r <;> simp [h, hr]
  · unfold run_external
    rcases ht : tokens_get_token (tok line) 0 with _ | p
    · rw [ht] at h
      simp [h, ht]
    · rw [ht] at h
      rcases he : st.execs.lookup p with _ | c <;> simp [h, ht, he]

/-- Each builtin handler either terminates the process with status 0
(`cmd_exit`) or returns the advisory value 1. -/
theorem call_cmd_res (tg : CmdTag) (tokens : List String) (st : OSState) :
    (call_cmd tg tokens st).2 = HRes.exited 0 ∨ (call_cmd tg tokens st).2 = HRes.ret 1 := by
  cases tg with
  | tag_exit => left; rfl
  | tag_help => right; rfl
  | tag_pwd =>
    right
    by_cases hw : st.getcwd_ok <;> simp [call_cmd, cmd_pwd, hw]
  | tag_cd =>
    right
    by_cases hl : tokens_get_length tokens = 1
    · rcases hh : st.env_HOME with _ | home
      · simp [call_cmd, cmd_cd, hl, hh]
      · by_cases hv : home ∈ st.validDirs <;> simp [call_cmd, cmd_cd, chdir, hl, hh, hv]
    · rcases ht1 : tokens_get_token tokens 1 with _ | dir
      · simp [call_cmd, cmd_cd, hl, ht1]
      · by_cases hv : dir ∈ st.validDirs <;> simp [call_cmd, cmd_cd, chdir, hl, ht1, hv]

/-- `run_builtin` inherits the handler result shape. -/
theorem run_builtin_res (i : Nat) (tokens : List String) (st : OSState) :
    (run_builtin i tokens st).2 = HRes.exited 0 ∨ (run_builtin i tokens st).2 = HRes.ret 1 := by
  unfold run_builtin
  rcases hd : cmd_table.get? i with _ | d
  · right; simp [hd]
  · simpa [hd] using call_cmd_res d.fn tokens st

/-- A line either leaves the loop running or terminates with 0. -/
theorem process_line_code (tok : String → List String) (line : String) (st : OSState) :
    (process_line tok line st).2.2 = none ∨ (process_line tok line st).2.2 = some 0 := by
  unfold process_line
  by_cases h : (0 : Int) ≤ lookup (tokens_get_token (tok line) 0)
  · rcases hr : run_builtin (lookup (tokens_get_token (tok line) 0)).toNat (tok line) st
      with ⟨st', r⟩
    have hres := run_builtin_res (lookup (tokens_get_token (tok line) 0)).toNat (tok line) st
    rw [hr] at hres
    cases r with
    | ret v => simp [h, hr]
    | exited c =>
      rcases hres with hres | hres
      · right
        have : c = 0 := by injection hres
        simp [h, hr, this]
      · cases hres
  · simp [h]

/-! ## Global loop invariants -/

/-- The loop ends only at end-of-input or by `exit(0)`. -/
theorem shell_loop_outcome (interactive : Bool) (tok : String → List String)
    (lines : List String) (n : Nat) (st : OSState) :
    (shell_loop interactive tok lines n st).2.2 = Outcome.eof ∨
    (shell_loop interactive tok lines n st).2.2 = Outcome.exited 0 := by
  induction lines generalizing n st with
  | nil => left; rfl
  | cons line rest ih =>
    rcases hp : process_line tok line st with ⟨steps, st', oc⟩
    have hc := process_line_code tok line st
    rw [hp] at hc
    cases oc with
    | none =>
      simpa [shell_loop, hp] using ih (if interactive then n + 1 else n) st'
    | some code =>
      rcases hc with hc | hc
      · cases hc
      · right
        have : code = 0 := by injection hc
        simp [shell_loop, hp, this]

/-- At end-of-input, every input line was processed: one iteration per
line plus the final end-of-input read. -/
theorem shell_loop_eof_length (interactive : Bool) (tok : String → List String)
    (lines : List String) (n : Nat) (st : OSState) :
    (shell_loop interactive tok lines n st).2.2 = Outcome.eof →
    (shell_loop interactive tok lines n st).1.length = lines.length + 1 := by
  induction lines generalizing n st with
  | nil => intro _; rfl
  | cons line rest ih =>
    intro he
    rcases hp : process_line tok line st with ⟨steps, st', oc⟩
    cases oc with
    | none =>
      rw [shell_loop, hp] at he ⊢
      simpa using ih (if interactive then n + 1 else n) st' (by simpa using he)
    | some code =>
      rw [shell_loop, hp] at he
      cases he

/-- The loop always makes at least the end-of-input read attempt. -/
theorem shell_loop_ne_nil (interactive : Bool) (tok : String → List String)
    (lines : List String) (n : Nat) (st : OSState) :
    (shell_loop interactive tok lines n st).1 ≠ [] := by
  cases lines with
  | nil => simp [shell_loop]
  | cons line rest =>
    rcases hp : process_line tok line st with ⟨steps, st', oc⟩
    cases oc <;> simp [shell_loop, hp]

/-- The last element of a cons with a nonempty tail is the tail's. -/
theorem getLast?_cons_ne_nil {α : Type} (a : α) {l : List α} (h : l ≠ []) :
    (a :: l).getLast? = l.getLast? := by
  cases l with
  | nil => exact absurd rfl h
  | cons b t => rfl

/-- At end-of-input the trace ends with the end-of-input read: a final
iteration that read no line and took no steps. -/
theorem shell_loop_eof_last (interactive : Bool) (tok : String → List String)
    (lines : List String) (n : Nat) (st : OSState) :
    (shell_loop interactive tok lines n st).2.2 = Outcome.eof →
    ∃ p, (shell_loop interactive tok lines n st).1.getLast? =
      some ⟨p, none, []⟩ := by
  induction lines generalizing n st with
  | nil => intro _; exact ⟨prompt_of interactive n, rfl⟩
  | cons line rest ih =>
    intro he
    rcases hp : process_line tok line st with ⟨steps, st', oc⟩
    cases oc with
    | none =>
      simp only [shell_loop, hp] at he ⊢
      rcases ih (if interactive then n + 1 else n) st' he with ⟨p, hlast⟩
      refine ⟨p, ?_⟩
      rw [getLast?_cons_ne_nil _ (shell_loop_ne_nil interactive tok rest _ st')]
      exact hlast
    | some code =>
      rw [shell_loop, hp] at he
      cases he

/-! ## Prompt behavior -/

/-- Non-interactive runs never print a prompt. -/
theorem shell_loop_prompts_none (tok : String → List String)
    (lines : List String) (n : Nat) (st : OSState) :
    (shell_loop false tok lines n st).1.map Iteration.prompt_before =
      List.replicate (shell_loop false tok lines n st).1.length none := by
  induction lines generalizing n st with
  | nil => simp [shell_loop, prompt_of]
  | cons line rest ih =>
    rcases hp : process_line tok line st with ⟨steps, st', oc⟩
    cases oc with
    | some code => simp [shell_loop, hp, prompt_of]
    | none =>
      simp [shell_loop, hp, prompt_of, List.replicate_succ]
      exact ih n st'

/-- Interactive runs print the prompt `"<k>: "` before the `k`-th read
(counting from the starting line number). -/
theorem shell_loop_prompts_interactive (tok : String → List String)
    (lines : List String) (n : Nat) (st : OSState) :
    (shell_loop true tok lines n st).1.map Iteration.prompt_before =
      (List.range (shell_loop true tok lines n st).1.length).map
        (fun i => some (prompt_text (n + i))) := by
  induction lines generalizing n st with
  | nil => simp [shell_loop, prompt_of, show List.range 1 = [0] from rfl]
  | cons line rest ih =>
    rcases hp : process_line tok line st with ⟨steps, st', oc⟩
    cases oc with
    | some code => simp [shell_loop, hp, prompt_of, show List.range 1 = [0] from rfl]
    | none =>
      have ihn := ih (n + 1) st'
      simp only [shell_loop, hp, if_true, List.map_cons, List.length_cons, prompt_of]
      rw [List.range_succ_eq_map, List.map_cons, List.map_map]
      congr 1
      rw [ihn]
      have hf : ((fun i => some (prompt_text (n + i))) ∘ Nat.succ) =
          (fun i => some (prompt_text (n + 1 + i))) := by
        funext i
        exact congrArg (fun k => some (prompt_text k)) (by omega)
      rw [hf]

/-- Interactivity changes only the prompts: the lines read, the steps
taken, the final state and the outcome are the same, whatever the two
runs' line counters. -/
theorem shell_loop_strip (tok : String → List String) (lines : List String)
    (n m : Nat) (st : OSState) :
    (shell_loop false tok lines n st).1.map (fun it => (it.line, it.steps)) =
      (shell_loop true tok lines m st).1.map (fun it => (it.line, it.steps)) ∧
    (shell_loop false tok lines n st).2 = (shell_loop true tok lines m st).2 := by
  induction lines generalizing n m st with
  | nil => simp [shell_loop]
  | cons line rest ih =>
    rcases hp : process_line tok line st with ⟨steps, st', oc⟩
    cases oc with
    | some code => simp [shell_loop, hp]
    | none =>
      have h := ih n (m + 1) st'
      simp [shell_loop, hp, h.1, h.2]

/-! ## C2: the spawn protocol -/

/-- C2: for a line whose first token is not a builtin name, the loop
takes the spawn path; the argument vector has the first token verbatim
at element 0 (no PATH search: `execv` is keyed on that literal path),
the remaining tokens in order, and a terminating NULL; and when the
exec fails the child writes an error to stderr attributed to the
requested program name and exits with the non-zero status
`EXIT_FAILURE` (1). -/
theorem C2_spawn (tok : String → List String) (line : String) (st : OSState)
    (t0 : String) (ts : List String)
    (htok : tok line = t0 :: ts)
    (hnb : lookup (some t0) < 0) :
    (process_line tok line st).1 = (run_external (t0 :: ts) st).1 ∧
    build_argv (t0 :: ts) = (some t0 :: ts.map some) ++ [none] ∧
    (build_argv (t0 :: ts)).getLast? = some none ∧
    (st.execs.lookup t0 = none →
      run_external (t0 :: ts) st =
        ([Step.fork, Step.exec (build_argv (t0 :: ts)), Step.child_fail (some t0),
          Step.wait_done],
         { st with stderr := st.stderr ++ [t0 ++ ": " ++ sys_err] }, 1)) := by
  have h0 : tokens_get_token (t0 :: ts) 0 = some t0 := rfl
  have hn : ¬ (0 : Int) ≤ lookup (some t0) := not_le.mpr hnb
  refine ⟨?_, by simp [build_argv], ?_, ?_⟩
  · simp [process_line, htok, h0, hn]
  · have hb : build_argv (t0 :: ts) = (some t0 :: ts.map some) ++ [none] := by
      simp [build_argv]
    rw [hb, List.getLast?_concat]
  · intro he
    simp [run_external, h0, he, build_argv]

/-- C2 witness: spawning the non-builtin, non-executable path
`/bin/nope` fails in the child with status 1 and a stderr message
naming the path. -/
theorem C2_spawn_w :
    run_external ["/bin/nope"] st0 =
      ([Step.fork, Step.exec (build_argv ["/bin/nope"]), Step.child_fail (some "/bin/nope"),
        Step.wait_done],
       { st0 with stderr := st0.stderr ++ ["/bin/nope: " ++ sys_err] }, 1) :=
  (C2_spawn tok_one "/bin/nope" st0 "/bin/nope" [] rfl (by decide)).2.2.2 rfl

/-! ## C3: one fork, one wait, strict sequencing -/

/-- C3: an iteration that touches a child (spawns or waits) has
exactly one fork and exactly one wait, and the wait is its very last
step — so the parent has consumed the child's completion before the
iteration ends and the next line is read. -/
theorem C3_one_fork_one_wait (interactive : Bool) (tok : String → List String)
    (lines : List String) (n : Nat) (st : OSState) :
    ∀ it ∈ (shell_loop interactive tok lines n st).1,
      (Step.fork ∈ it.steps ∨ Step.wait_done ∈ it.steps) →
      it.steps.count Step.fork = 1 ∧ it.steps.count Step.wait_done = 1 ∧
      it.steps.getLast? = some Step.wait_done := by
  induction lines generalizing n st with
  | nil =>
    intro it hit hext
    simp [shell_loop] at hit
    subst hit
    simp at hext
  | cons line rest ih =>
    intro it hit hext
    rcases hp : process_line tok line st with ⟨steps, st', oc⟩
    have hshape := process_line_shape tok line st
    rw [hp] at hshape
    cases oc with
    | some code =>
      simp [shell_loop, hp] at hit
      subst hit
      rcases hshape with ⟨i, hi⟩ | ⟨argv, nm, hi⟩ | ⟨argv, p, hi⟩ <;> simp at hi <;>
        subst hi <;> simp_all [List.count_cons]
    | none =>
      simp [shell_loop, hp] at hit
      rcases hit with hit | hit
      · subst hit
        rcases hshape with ⟨i, hi⟩ | ⟨argv, nm, hi⟩ | ⟨argv, p, hi⟩ <;> simp at hi <;>
          subst hi <;> simp_all [List.count_cons]
      · exact ih (if interactive then n + 1 else n) st' it hit hext

/-- C3 witness: the iteration spawning `ls` has one fork, one wait,
wait last. -/
theorem C3_one_fork_one_wait_w :
    (Iteration.mk none (some "ls")
        [Step.fork, Step.exec [some "ls", none], Step.child_fail (some "ls"),
         Step.wait_done]).steps.count Step.fork = 1 ∧
    (Iteration.mk none (some "ls")
        [Step.fork, Step.exec [some "ls", none], Step.child_fail (some "ls"),
         Step.wait_done]).steps.count Step.wait_done = 1 ∧
    (Iteration.mk none (some "ls")
        [Step.fork, Step.exec [some "ls", none], Step.child_fail (some "ls"),
         Step.wait_done]).steps.getLast? = some Step.wait_done :=
  C3_one_fork_one_wait false tok_one ["ls"] 0 st0
    ⟨none, some "ls",
      [Step.fork, Step.exec [some "ls", none], Step.child_fail (some "ls"), Step.wait_done]⟩
    (by decide) (by decide)

/-! ## C5, C6, C7: loop-level claims -/

/-- C5: no error terminates the parent loop.  Whatever the lines
contain, the run ends only at end-of-input or through the `exit`
builtin (`exit(0)`), and when it ends at end-of-input every input line
was processed (one iteration per line plus the final read). -/
theorem C5_no_fatal (interactive : Bool) (tok : String → List String)
    (lines : List String) (n : Nat) (st : OSState) :
    ((shell_loop interactive tok lines n st).2.2 = Outcome.eof ∨
     (shell_loop interactive tok lines n st).2.2 = Outcome.exited 0) ∧
    ((shell_loop interactive tok lines n st).2.2 = Outcome.eof →
      (shell_loop interactive tok lines n st).1.length = lines.length + 1) :=
  ⟨shell_loop_outcome interactive tok lines n st,
   shell_loop_eof_length interactive tok lines n st⟩

/-- C5 witness: a line naming a nonexistent program is reported and
the loop still reaches end-of-input having processed the line. -/
theorem C5_no_fatal_w :
    (shell_loop false tok_one ["/bin/nope"] 0 st0).1.length = 1 + 1 :=
  (C5_no_fatal false tok_one ["/bin/nope"] 0 st0).2 (by decide)

/-- C6: a numeric prompt of the form `"<line_number>: "` is printed
before each read exactly when the session is interactive: the
non-interactive run prints no prompt at all, the interactive run
prints `"<k>: "` before its `k`-th read, and apart from prompts the
two runs read the same lines, take the same steps and end in the same
state and outcome. -/
theorem C6_prompts (tok : String → List String) (lines : List String) (st : OSState) :
    ((shell_loop false tok lines 0 st).1.map Iteration.prompt_before =
       List.replicate (shell_loop false tok lines 0 st).1.length none) ∧
    ((shell_loop true tok lines 0 st).1.map Iteration.prompt_before =
       (List.range (shell_loop true tok lines 0 st).1.length).map
         (fun i => some (prompt_text i))) ∧
    ((shell_loop false tok lines 0 st).1.map (fun it => (it.line, it.steps)) =
       (shell_loop true tok lines 0 st).1.map (fun it => (it.line, it.steps))) ∧
    (shell_loop false tok lines 0 st).2 = (shell_loop true tok lines 0 st).2 := by
  refine ⟨shell_loop_prompts_none tok lines 0 st, ?_,
    (shell_loop_strip tok lines 0 0 st).1, (shell_loop_strip tok lines 0 0 st).2⟩
  simpa using shell_loop_prompts_interactive tok lines 0 st

/-- C7: the process exits with success in exactly the two terminal
cases: end-of-input (status 0, the trace ending with the read that
returned nothing, after which no step is taken), and the `exit`
builtin, which ends the run immediately at its own line with status 0
(any remaining lines are never read). -/
theorem C7_exit_success (interactive : Bool) (tok : String → List String)
    (lines : List String) (n : Nat) (st : OSState) :
    final_status (shell_loop interactive tok lines n st).2.2 = 0 ∧
    ((shell_loop interactive tok lines n st).2.2 = Outcome.eof →
      ∃ p, (shell_loop interactive tok lines n st).1.getLast? = some ⟨p, none, []⟩) ∧
    (∀ line rest st', tokens_get_token (tok line) 0 = some "exit" →
      shell_loop interactive tok (line :: rest) n st' =
        ([⟨prompt_of interactive n, some line, [Step.builtin 0]⟩], st',
         Outcome.exited 0)) := by
  refine ⟨?_, shell_loop_eof_last interactive tok lines n st, ?_⟩
  · rcases shell_loop_outcome interactive tok lines n st with h | h <;> rw [h] <;> rfl
  · intro line rest st' ht
    have hl : lookup (some "exit") = 0 := rfl
    have hp : process_line tok line st' = ([Step.builtin 0], st', some 0) := by
      simp [process_line, ht, hl, run_builtin, cmd_table, call_cmd, cmd_exit]
    simp [shell_loop, hp]

/-- C7 witness: `exit` on the first line terminates at once with
status 0; the following line is never read. -/
theorem C7_exit_success_w :
    shell_loop false tok_one ["exit", "ls"] 0 st0 =
      ([⟨none, some "exit", [Step.builtin 0]⟩], st0, Outcome.exited 0) :=
  (C7_exit_success false tok_one ["exit", "ls"] 0 st0).2.2 "exit" ["ls"] st0 rfl

/-! ## C10: the empty line -/

/-- C10: a line with zero tokens is not skipped: `lookup` gets the
NULL first token and returns -1, so the loop forks; the child's argv
is the single NULL marker, its exec fails, it reports to stderr and
exits with status 1; the parent waits and continues with the rest of
the input. -/
theorem C10_empty_line (tok : String → List String) (line : String)
    (rest : List String) (interactive : Bool) (n : Nat) (st : OSState)
    (hline : tok line = []) :
    lookup (tokens_get_token (tok line) 0) = -1 ∧
    process_line tok line st =
      ([Step.fork, Step.exec [none], Step.child_fail none, Step.wait_done],
       { st with stderr := st.stderr ++ [sys_err] }, none) ∧
    (run_external (tok line) st).2.2 = 1 ∧
    shell_loop interactive tok (line :: rest) n st =
      (⟨prompt_of interactive n, some line,
          [Step.fork, Step.exec [none], Step.child_fail none, Step.wait_done]⟩ ::
        (shell_loop interactive tok rest (if interactive then n + 1 else n)
          { st with stderr := st.stderr ++ [sys_err] }).1,
       (shell_loop interactive tok rest (if interactive then n + 1 else n)
          { st with stderr := st.stderr ++ [sys_err] }).2) := by
  have ht : tokens_get_token (tok line) 0 = none := by
    rw [hline]; rfl
  have h1 : lookup (tokens_get_token (tok line) 0) = -1 := by
    rw [ht]; rfl
  have hp : process_line tok line st =
      ([Step.fork, Step.exec [none], Step.child_fail none, Step.wait_done],
       { st with stderr := st.stderr ++ [sys_err] }, none) := by
    have h2 : ¬ (0 : Int) ≤ lookup none := by decide
    simp [process_line, run_external, build_argv, tokens_get_token, hline, h2]
  refine ⟨h1, hp, ?_, ?_⟩
  · simp [run_external, ht]
  · simp [shell_loop, hp]

/-- C10 witness: the zero-token line forks a child whose exec fails
with exit status 1. -/
theorem C10_empty_line_w : (run_external (tok_none "x") st0).2.2 = 1 :=
  (C10_empty_line tok_none "x" [] false 0 st0 rfl).2.2.1
